import Mathlib

/-!
# Mockmate backend — shallow embedding of the interview-session core

This file embeds the interview session lifecycle of the Mockmate backend
(`app/services/interview_service.py`, `app/services/ai_service.py`,
`app/db/session.py`, and the schema in the initial alembic migration)
and proves or refutes the frozen claims about it.

Modelling conventions:

* SQL rows become Lean structures; the three tables relevant to the claims
  (`interview_sessions`, `interview_questions`, `question_feedback`) are a
  `DB` record of lists of rows.  Column defaults come from the migration
  (`is_completed` has server default the string `"false"`, `final_score`
  and `user_answer` are nullable).
* SQL `float` is modelled as `ℚ`; nullable columns as `Option`.
* Outbound Groq calls are modelled by an oracle argument of type
  `Except HTTPError Parsed…`: the outcome of `AIService._extract_json`
  (either an `HTTPException` for network/JSON failure, or a parsed JSON
  object whose fields may be missing, hence `Option` fields).
* The SQLAlchemy session factory is configured with `autoflush=False`
  (`app/db/session.py` line 43), so queries issued inside a request see
  only the committed rows, never pending in-memory attribute writes;
  the single `db.commit()` at the end of an operation publishes all
  pending writes at once, and `get_db` rolls everything back if the
  service raised.  The embedding mirrors this: every query inside an
  operation reads the `DB` value the operation started from, the returned
  `DB` in the `.ok` case is the committed state, and an `.error` result
  leaves the caller's `DB` untouched (`visibleDB` below).
* `uuid.uuid4()` results are oracle string arguments.
-/

namespace Mockmate

/-- Model of `fastapi.HTTPException`: an HTTP status code plus a human-readable
detail string.  The service layer signals every failure this way. -/
structure HTTPError where
  status_code : Nat
  detail : String
deriving Repr, DecidableEq

/-- Row of `interview_sessions` (alembic migration `ef572e2f6aff`).
`is_completed` is a *string* column with server default `'false'`;
`final_score` is a nullable float, modelled as `Option ℚ`. -/
structure InterviewSession where
  id : String
  user_id : String
  role : String
  difficulty : String
  question_count : Nat
  final_score : Option ℚ
  is_completed : String
  created_at : Nat
deriving Repr, DecidableEq

/-- Row of `interview_questions`: `user_answer` is nullable text. -/
structure InterviewQuestion where
  id : String
  session_id : String
  question_text : String
  user_answer : Option String
  order_index : Nat
deriving Repr, DecidableEq

/-- Row of `question_feedback`. -/
structure QuestionFeedback where
  id : String
  question_id : String
  score : Int
  overall_feedback : String
  strengths : List String
  improvements : List String
deriving Repr, DecidableEq

/-- The committed database state: the three interview tables. -/
structure DB where
  sessions : List InterviewSession
  questions : List InterviewQuestion
  feedbacks : List QuestionFeedback
deriving Repr, DecidableEq

/-- Schema `StartInterviewRequest` (`app/schemas/interview.py`): pydantic
validates `role` 2–100 chars, `difficulty` in the enum, and
`question_count` between 3 and 10 before the service runs. -/
structure StartInterviewRequest where
  role : String
  difficulty : String
  question_count : Nat
deriving Repr, DecidableEq

/-- Schema `SubmitAnswerRequest`: pydantic validates `answer` to 1–5000 chars. -/
structure SubmitAnswerRequest where
  answer : String
deriving Repr, DecidableEq

/-- The pydantic constraint on `SubmitAnswerRequest.answer`
(`min_length=1, max_length=5000`); requests reaching the service
always satisfy it. -/
def validSubmitAnswerRequest (data : SubmitAnswerRequest) : Prop :=
  1 ≤ data.answer.length ∧ data.answer.length ≤ 5000

/-- Schema `SubmitAnswerResponse` (`app/schemas/interview.py`). -/
structure SubmitAnswerResponse where
  question_id : String
  feedback : QuestionFeedback
  is_last_question : Bool
  session_complete : Bool
deriving Repr, DecidableEq

/-- Schema `SessionHistoryItem` (`app/schemas/interview.py`). -/
structure SessionHistoryItem where
  id : String
  role : String
  difficulty : String
  question_count : Nat
  score : ℚ
  completed_at : Nat
deriving Repr, DecidableEq

/-! ## AI Provider Gateway (`app/services/ai_service.py`)

`_extract_json` either raises (502 on JSON/`KeyError`, 503 on HTTP status
error) or yields a parsed JSON object.  The parsed object is modelled with
`Option` fields because the provider may omit keys. -/

/-- Parsed provider response for question generation:
`{"questions": [...]}`, possibly with the key missing. -/
structure ParsedGeneration where
  questions : Option (List String)
deriving Repr, DecidableEq

/-- Parsed provider response for answer evaluation: the four documented
keys, each possibly missing. -/
structure ParsedEvaluation where
  score : Option Int
  overall_feedback : Option String
  strengths : Option (List String)
  improvements : Option (List String)
deriving Repr, DecidableEq

/-- The validated evaluation record `AIService.evaluate_answer` hands to
its caller. -/
structure EvaluationData where
  score : Int
  overall_feedback : String
  strengths : List String
  improvements : List String
deriving Repr, DecidableEq

/-- Body of `AIService.generate_questions` after `_extract_json`:
`questions = data.get("questions", [])`; error 502 when the list is
falsy or shorter than `count`; otherwise truncate to `count`. -/
def generate_questions (outcome : Except HTTPError ParsedGeneration)
    (count : Nat) : Except HTTPError (List String) :=
  match outcome with
  | .error e => .error e
  | .ok data =>
    if (data.questions.getD []).isEmpty ||
        (data.questions.getD []).length < count then
      .error ⟨502, "AI did not return the expected number of questions."⟩
    else
      .ok ((data.questions.getD []).take count)

/-- Body of `AIService.evaluate_answer` after `_extract_json`: 502 when any of
the four required keys is missing; otherwise
`score = max(0, min(100, score))`, and the two lists are truncated
to at most 5 entries (`[:5]`). -/
def evaluate_answer (outcome : Except HTTPError ParsedEvaluation) :
    Except HTTPError EvaluationData :=
  match outcome with
  | .error e => .error e
  | .ok data =>
    if data.score.isNone || data.overall_feedback.isNone ||
        data.strengths.isNone || data.improvements.isNone then
      .error ⟨502, "AI response missing required feedback fields."⟩
    else
      .ok { score := max 0 (min 100 (data.score.getD 0)),
            overall_feedback := data.overall_feedback.getD "",
            strengths := (data.strengths.getD []).take 5,
            improvements := (data.improvements.getD []).take 5 }

/-! ## Session Lifecycle Engine (`app/services/interview_service.py`) -/

/-- Python truthiness of the nullable `user_answer` column, as used by
`if question.user_answer:` on line 105 of `interview_service.py`:
`None` and the empty string are falsy. -/
def pyTruthyStr : Option String → Bool
  | none => false
  | some s => !(s == "")

/-- Python `x or default` on a nullable float (`s.final_score or 0.0`
in `get_history`): `None` and `0.0` are falsy. -/
def pyOrFloat (x : Option ℚ) (default : ℚ) : ℚ :=
  match x with
  | none => default
  | some v => if v == 0 then default else v

/-- Helper `InterviewService._get_session_for_user`: one query filtering on
`id == session_id AND user_id == user_id`; a miss raises the same
404 "Session not found." whether the session is absent or owned by
another user. -/
def get_session_for_user (db : DB) (session_id user_id : String) :
    Except HTTPError InterviewSession :=
  match (db.sessions.filter
      (fun s => s.id == session_id && s.user_id == user_id)).head? with
  | none => .error ⟨404, "Session not found."⟩
  | some s => .ok s

/-- The count query of `submit_answer` (lines 131–134): questions of the
session whose `user_answer` column is not SQL NULL, counted in the
*committed* state (with `autoflush=False` the pending in-memory answer
write has not been flushed when this query runs). -/
def answeredCount (db : DB) (session_id : String) : Nat :=
  (db.questions.filter
    (fun q => q.session_id == session_id && q.user_answer.isSome)).length

/-- The feedback join query of `submit_answer` (lines 140–145):
`QuestionFeedback JOIN InterviewQuestion ON question_id = id`
filtered to the session, again over the committed state (the feedback
added in this request is still pending, hence the `+ [current score]`
in the source). -/
def sessionFeedbacks (db : DB) (session_id : String) : List QuestionFeedback :=
  db.feedbacks.filter (fun f =>
    db.questions.any (fun q => q.id == f.question_id && q.session_id == session_id))

/-- Operation `InterviewService.start_session`: build the session row (defaults
`final_score = NULL`, `is_completed = "false"`), flush it inside the
transaction, call the gateway, insert one question row per returned
text with `order_index = 0, 1, …`, then commit everything at once.
An error result means the service raised before `commit`; `get_db`
then rolls the flushed row back, so the caller's `DB` is unchanged.
`session_uuid` / `question_uuid` stand for the `uuid.uuid4()` draws
and `now` for the `created_at` server default. -/
def start_session (db : DB) (user_id : String) (data : StartInterviewRequest)
    (session_uuid : String) (question_uuid : Nat → String) (now : Nat)
    (aiOutcome : Except HTTPError ParsedGeneration) :
    Except HTTPError DB :=
  let session : InterviewSession :=
    { id := session_uuid, user_id := user_id, role := data.role,
      difficulty := data.difficulty, question_count := data.question_count,
      final_score := none, is_completed := "false", created_at := now }
  match generate_questions aiOutcome data.question_count with
  | .error e => .error e
  | .ok question_texts =>
    let new_questions : List InterviewQuestion :=
      question_texts.enum.map (fun p =>
        { id := question_uuid p.1, session_id := session.id,
          question_text := p.2, user_answer := none, order_index := p.1 })
    .ok { db with
          sessions := db.sessions ++ [session],
          questions := db.questions ++ new_questions }

/-- Operation `InterviewService.submit_answer`.  Faithful points:

* session lookup via `get_session_for_user` (identical 404 for absent
  and not-owned);
* question lookup filtered on `id == question_id AND
  session_id == session_id`, 404 "Question not found." on a miss;
* the already-answered guard is Python truthiness of `user_answer`;
* `question.user_answer = data.answer` is a *pending* attribute write:
  with `autoflush=False` it is invisible to the two queries below and
  is only published by the final `commit` (or discarded on error);
* `answered_count` and the feedback join are computed over the
  committed state `db`, and the current feedback score is appended
  explicitly (line 147);
* `is_last = answered_count >= session.question_count`;
* on `is_last`, `final_score = sum(all_scores)/len(all_scores)` and
  `is_completed = "true"` are pending session-row writes;
* `commit` publishes: the answer on the question row (keyed by primary
  key), the new feedback row, and the session-row update if any.

`submit_commit` is the part after the AI evaluation succeeded (lines
119–159): building the pending feedback row, the completion check and
the commit. -/
def submit_commit (db : DB) (session_id question_id : String)
    (session : InterviewSession) (question : InterviewQuestion)
    (answer : String) (feedback_uuid : String)
    (feedback_data : EvaluationData) : DB × SubmitAnswerResponse :=
  let feedback : QuestionFeedback :=
    { id := feedback_uuid, question_id := question.id,
      score := feedback_data.score,
      overall_feedback := feedback_data.overall_feedback,
      strengths := feedback_data.strengths,
      improvements := feedback_data.improvements }
  let answered_count := answeredCount db session_id
  let is_last : Bool := answered_count ≥ session.question_count
  let all_scores : List Int :=
    (sessionFeedbacks db session_id).map (fun f => f.score)
      ++ [feedback_data.score]
  let final_score : ℚ :=
    (all_scores.sum : ℚ) / (all_scores.length : ℚ)
  let sessions2 :=
    if is_last then
      db.sessions.map (fun s =>
        if s.id == session.id then
          { s with final_score := some final_score,
                   is_completed := "true" }
        else s)
    else db.sessions
  let db2 : DB :=
    { sessions := sessions2,
      questions := db.questions.map (fun q =>
        if q.id == question.id then
          { q with user_answer := some answer }
        else q),
      feedbacks := db.feedbacks ++ [feedback] }
  (db2,
    { question_id := question_id, feedback := feedback,
      is_last_question := is_last, session_complete := is_last })

/-- Operation `InterviewService.submit_answer`: the guards (lines 93–106), the
pending answer write, the AI evaluation, then `submit_commit`. -/
def submit_answer (db : DB) (session_id question_id user_id : String)
    (data : SubmitAnswerRequest) (feedback_uuid : String)
    (aiOutcome : Except HTTPError ParsedEvaluation) :
    Except HTTPError (DB × SubmitAnswerResponse) :=
  match get_session_for_user db session_id user_id with
  | .error e => .error e
  | .ok session =>
    match (db.questions.filter
        (fun q => q.id == question_id && q.session_id == session_id)).head? with
    | none => .error ⟨404, "Question not found."⟩
    | some question =>
      if pyTruthyStr question.user_answer then
        .error ⟨400, "This question has already been answered."⟩
      else
        match evaluate_answer aiOutcome with
        | .error e => .error e
        | .ok feedback_data =>
          .ok (submit_commit db session_id question_id session question
                data.answer feedback_uuid feedback_data)

/-- Operation `InterviewService.get_history`: committed sessions of the user
(`is_completed == "true"`), ordered by `created_at` descending,
limited, and projected; `score` is `final_score or 0.0` and
`completed_at` is the session's `created_at` (as in the source). -/
def get_history (db : DB) (user_id : String) (limit : Nat) :
    List SessionHistoryItem :=
  let sessions :=
    ((db.sessions.filter
        (fun s => s.user_id == user_id && s.is_completed == "true")).mergeSort
      (fun a b => b.created_at ≤ a.created_at)).take limit
  sessions.map (fun s =>
    { id := s.id, role := s.role, difficulty := s.difficulty,
      question_count := s.question_count,
      score := pyOrFloat s.final_score 0,
      completed_at := s.created_at })

/-- The `get_db` semantics around a state-returning operation: the committed
state a *subsequent request* reads.  On error the service never reached
`commit`, so the rollback leaves the previous state. -/
def visibleDB (db : DB) : Except HTTPError DB → DB
  | .error _ => db
  | .ok db2 => db2

/-- The `get_db` semantics around `submit_answer`. -/
def visibleDBSubmit (db : DB) :
    Except HTTPError (DB × SubmitAnswerResponse) → DB
  | .error _ => db
  | .ok (db2, _) => db2

/-! ## Concrete example data

A three-question session of user `u1` in which `q1` and `q2` have already
been answered and evaluated in earlier (committed) requests, and `q0` is
still open.  This is exactly the committed state that the *last*
`submit_answer` call of a session runs against. -/

def exSession : InterviewSession :=
  ⟨"s1", "u1", "Backend Engineer", "Easy", 3, none, "false", 5⟩

def exQ0 : InterviewQuestion := ⟨"q0", "s1", "A?", none, 0⟩

def exQ1 : InterviewQuestion := ⟨"q1", "s1", "B?", some "a1", 1⟩

def exQ2 : InterviewQuestion := ⟨"q2", "s1", "C?", some "a2", 2⟩

def exF1 : QuestionFeedback := ⟨"f1", "q1", 80, "fb", [], []⟩

def exF2 : QuestionFeedback := ⟨"f2", "q2", 90, "fb", [], []⟩

def exDB : DB := ⟨[exSession], [exQ0, exQ1, exQ2], [exF1, exF2]⟩

/-- A successful provider evaluation outcome used in the examples. -/
def exEvalOk : Except HTTPError ParsedEvaluation :=
  .ok ⟨some 70, some "Good.", some ["clear"], some ["depth"]⟩

/-- The question row `q0` after the example submission commits. -/
def exQ0Answered : InterviewQuestion := ⟨"q0", "s1", "A?", some "a3", 0⟩

/-- The feedback row the example submission commits. -/
def exF9 : QuestionFeedback := ⟨"f9", "q0", 70, "Good.", ["clear"], ["depth"]⟩

/-- The committed state after submitting the answer to `q0` of `exDB`:
the session row is untouched (not completed, `final_score` still NULL)
even though all three questions are now answered. -/
def exDBAfter : DB := ⟨[exSession], [exQ0Answered, exQ1, exQ2], [exF1, exF2, exF9]⟩

/-- The response of the example submission: both flags are `false`. -/
def exRespAfter : SubmitAnswerResponse := ⟨"q0", exF9, false, false⟩

/-! ## Helper lemmas -/

theorem get_session_for_user_ok {db : DB} {sid uid : String}
    {s : InterviewSession} (h : get_session_for_user db sid uid = .ok s) :
    (db.sessions.filter
      (fun x => x.id == sid && x.user_id == uid)).head? = some s := by
  unfold get_session_for_user at h
  split at h
  · exact absurd h (by simp)
  · rename_i heq
    rw [heq]
    simpa using h

/-- Inversion for a successful `submit_answer`: every guard passed and
the result is the committed pair of `submit_commit`. -/
theorem submit_answer_ok_inv {db : DB} {sid qid uid : String}
    {data : SubmitAnswerRequest} {fu : String}
    {o : Except HTTPError ParsedEvaluation}
    {db2 : DB} {resp : SubmitAnswerResponse}
    (h : submit_answer db sid qid uid data fu o = .ok (db2, resp)) :
    ∃ session question feedback_data,
      get_session_for_user db sid uid = .ok session
      ∧ (db.questions.filter
          (fun q => q.id == qid && q.session_id == sid)).head? = some question
      ∧ pyTruthyStr question.user_answer = false
      ∧ evaluate_answer o = .ok feedback_data
      ∧ (db2, resp) =
          submit_commit db sid qid session question data.answer fu feedback_data := by
  unfold submit_answer at h
  split at h
  · exact absurd h (by simp)
  · rename_i session hsess
    split at h
    · exact absurd h (by simp)
    · rename_i question hques
      split at h
      · exact absurd h (by simp)
      · rename_i htruthy
        split at h
        · exact absurd h (by simp)
        · rename_i fd hfd
          refine ⟨session, question, fd, hsess, hques, ?_, hfd, ?_⟩
          · simpa using htruthy
          · simpa using h.symm

/-- A question delivered by the question-lookup query belongs to the
store and matches both filters. -/
theorem question_lookup_facts {db : DB} {qid sid : String}
    {question : InterviewQuestion}
    (hq : (db.questions.filter
      (fun q => q.id == qid && q.session_id == sid)).head? = some question) :
    question ∈ db.questions ∧ question.id = qid ∧ question.session_id = sid := by
  have hmem := List.mem_of_mem_head? hq
  rw [List.mem_filter] at hmem
  refine ⟨hmem.1, ?_, ?_⟩
  · have := hmem.2
    simp only [Bool.and_eq_true, beq_iff_eq] at this
    exact this.1
  · have := hmem.2
    simp only [Bool.and_eq_true, beq_iff_eq] at this
    exact this.2

/-- A session delivered by `get_session_for_user` belongs to the store,
has the requested id and is owned by the caller. -/
theorem session_lookup_facts {db : DB} {sid uid : String}
    {session : InterviewSession}
    (hs : get_session_for_user db sid uid = .ok session) :
    session ∈ db.sessions ∧ session.id = sid ∧ session.user_id = uid := by
  have hmem := List.mem_of_mem_head? (get_session_for_user_ok hs)
  rw [List.mem_filter] at hmem
  have := hmem.2
  simp only [Bool.and_eq_true, beq_iff_eq] at this
  exact ⟨hmem.1, this.1, this.2⟩

/-! ## C6 — gateway validation, clamping and truncation -/

/-- C6: on a parsed evaluation response, a missing required key yields
the 502 `UpstreamInvalid` failure; when all four keys are present the
call succeeds with the score clamped into `[0,100]` (out-of-range
values clipped, never rejected) and the two lists truncated to at
most 5 entries. -/
theorem evaluate_answer_validates_and_clamps (d : ParsedEvaluation) :
    ((d.score = none ∨ d.overall_feedback = none ∨ d.strengths = none ∨
        d.improvements = none) →
      evaluate_answer (.ok d) =
        .error ⟨502, "AI response missing required feedback fields."⟩)
    ∧ (∀ s fb st im, d = ⟨some s, some fb, some st, some im⟩ →
        evaluate_answer (.ok d) =
          .ok ⟨max 0 (min 100 s), fb, st.take 5, im.take 5⟩
        ∧ (0 : Int) ≤ max 0 (min 100 s) ∧ max 0 (min 100 s) ≤ 100
        ∧ (100 ≤ s → max 0 (min 100 s) = 100)
        ∧ (s ≤ 0 → max 0 (min 100 s) = 0)
        ∧ ((0 : Int) ≤ s → s ≤ 100 → max 0 (min 100 s) = s)
        ∧ (st.take 5).length ≤ 5 ∧ (im.take 5).length ≤ 5) := by
  constructor
  · intro h
    rcases h with h | h | h | h <;> simp [evaluate_answer, h]
  · rintro s fb st im rfl
    refine ⟨by simp [evaluate_answer], ?_, ?_, ?_, ?_, ?_, ?_, ?_⟩
    · omega
    · omega
    · omega
    · omega
    · omega
    · simp
    · simp

/-- C6 witness: a response with score 150 and eight strengths is stored
with score 100 and exactly five strengths. -/
theorem evaluate_answer_validates_and_clamps_witness :
    evaluate_answer (.ok ⟨some 150, some "fb",
        some ["a", "b", "c", "d", "e", "f", "g", "h"], some []⟩) =
      .ok ⟨100, "fb", ["a", "b", "c", "d", "e"], []⟩ := by
  have h := (evaluate_answer_validates_and_clamps
      ⟨some 150, some "fb", some ["a", "b", "c", "d", "e", "f", "g", "h"],
        some []⟩).2 150 "fb" ["a", "b", "c", "d", "e", "f", "g", "h"] [] rfl
  simpa using h.1

/-! ## C8 — uniform NotFound for absent and not-owned sessions -/

/-- C8: `submit_answer` fails with the byte-identical 404 error when no
session with the requested id exists and when such a session exists
but belongs to a different user, so the response does not reveal
whether the session exists for another user. -/
theorem submit_answer_notFound_uniform
    (db1 db2 : DB) (sid uid qid1 qid2 : String)
    (d1 d2 : SubmitAnswerRequest) (fu1 fu2 : String)
    (o1 o2 : Except HTTPError ParsedEvaluation)
    (h1 : ∀ s ∈ db1.sessions, s.id ≠ sid)
    (h2 : ∀ s ∈ db2.sessions, s.id = sid → s.user_id ≠ uid) :
    submit_answer db1 sid qid1 uid d1 fu1 o1 =
        .error ⟨404, "Session not found."⟩
    ∧ submit_answer db2 sid qid2 uid d2 fu2 o2 =
        .error ⟨404, "Session not found."⟩
    ∧ submit_answer db1 sid qid1 uid d1 fu1 o1 =
        submit_answer db2 sid qid2 uid d2 fu2 o2 := by
  have e1 : db1.sessions.filter
      (fun s => s.id == sid && s.user_id == uid) = [] := by
    rw [List.filter_eq_nil_iff]
    intro s hs
    simp only [Bool.and_eq_true, beq_iff_eq, not_and]
    intro hid _
    exact h1 s hs hid
  have e2 : db2.sessions.filter
      (fun s => s.id == sid && s.user_id == uid) = [] := by
    rw [List.filter_eq_nil_iff]
    intro s hs
    simp only [Bool.and_eq_true, beq_iff_eq, not_and]
    intro hid huid
    exact h2 s hs hid huid
  refine ⟨?_, ?_, ?_⟩ <;>
    simp [submit_answer, get_session_for_user, e1, e2]

/-- C8 witness: on the example store, a request for a non-existent
session id and a request by a non-owner both produce the identical
404 "Session not found." error. -/
theorem submit_answer_notFound_uniform_witness :
    submit_answer exDB "zzz" "q0" "u1" ⟨"a"⟩ "f" exEvalOk =
        .error ⟨404, "Session not found."⟩
    ∧ submit_answer exDB "s1" "q0" "intruder" ⟨"a"⟩ "f" exEvalOk =
        .error ⟨404, "Session not found."⟩
    ∧ submit_answer exDB "zzz" "q0" "u1" ⟨"a"⟩ "f" exEvalOk =
        submit_answer exDB "s1" "q0" "intruder" ⟨"a"⟩ "f" exEvalOk := by
  have h := submit_answer_notFound_uniform exDB exDB "zzz" "u1" "q0" "q0"
      ⟨"a"⟩ ⟨"a"⟩ "f" "f" exEvalOk exEvalOk (by decide) (by decide)
  -- the not-owned case, derived from the same theorem with the
  -- absent-session side instantiated at an empty store
  have h2 := submit_answer_notFound_uniform ⟨[], [], []⟩ exDB "s1" "intruder"
      "q0" "q0" ⟨"a"⟩ ⟨"a"⟩ "f" "f" exEvalOk exEvalOk
      (by decide) (by decide)
  exact ⟨h.1, h2.2.1, h.1.trans h2.2.1.symm⟩

/-! ## C3 and C7 — start_session -/

/-- A successful `generate_questions` call returns exactly `count` texts:
the first `count` of what the provider sent. -/
theorem generate_questions_ok {o : Except HTTPError ParsedGeneration}
    {count : Nat} {texts : List String}
    (h : generate_questions o count = .ok texts) :
    ∃ g, o = .ok g ∧ texts = (g.questions.getD []).take count
      ∧ count ≤ (g.questions.getD []).length ∧ texts.length = count := by
  match o with
  | .error e =>
    rw [show generate_questions (Except.error e) count = Except.error e
      from rfl] at h
    exact Except.noConfusion h
  | .ok g =>
    refine ⟨g, rfl, ?_⟩
    rw [show generate_questions (Except.ok g) count =
        (if ((g.questions.getD []).isEmpty ||
            decide ((g.questions.getD []).length < count)) = true then
          (Except.error ⟨502,
            "AI did not return the expected number of questions."⟩ :
            Except HTTPError (List String))
        else .ok ((g.questions.getD []).take count)) from rfl] at h
    split at h
    · exact absurd h (by simp)
    · rename_i hcond
      simp only [Bool.or_eq_true, not_or, List.isEmpty_iff,
        decide_eq_true_eq, Nat.not_lt] at hcond
      have htake : texts = (g.questions.getD []).take count := by
        simpa using h.symm
      refine ⟨htake, hcond.2, ?_⟩
      rw [htake, List.length_take]
      omega

/-- C3: `start_session` is all-or-nothing.  If the gateway call fails,
the service raises before `commit`, the flushed session row is rolled
back by `get_db`, and the state a subsequent read sees is exactly the
previous one (no partial session, no questions).  On success the new
session row and all its question rows are committed together in one
state transition, and nothing else changes. -/
theorem start_session_atomic (db : DB) (user_id : String)
    (data : StartInterviewRequest) (su : String) (qu : Nat → String)
    (now : Nat) (o : Except HTTPError ParsedGeneration) :
    (∀ e, start_session db user_id data su qu now o = .error e →
      visibleDB db (start_session db user_id data su qu now o) = db)
    ∧ (∀ db2, start_session db user_id data su qu now o = .ok db2 →
        ∃ qs, db2.sessions = db.sessions ++
            [⟨su, user_id, data.role, data.difficulty, data.question_count,
              none, "false", now⟩]
          ∧ db2.questions = db.questions ++ qs
          ∧ qs.length = data.question_count
          ∧ (∀ q ∈ qs, q.session_id = su ∧ q.user_answer = none)
          ∧ db2.feedbacks = db.feedbacks) := by
  constructor
  · intro e h
    rw [h]
    rfl
  · intro db2 h
    unfold start_session at h
    split at h
    · exact absurd h (by simp)
    · rename_i texts hgen
      obtain ⟨g, -, -, -, hlen⟩ := generate_questions_ok hgen
      have hdb2 := Except.ok.inj h
      subst hdb2
      refine ⟨texts.enum.map (fun p =>
          { id := qu p.1, session_id := su, question_text := p.2,
            user_answer := none, order_index := p.1 }), rfl, rfl, ?_, ?_, rfl⟩
      · rw [List.length_map, List.enum_length, hlen]
      · intro q hq
        rw [List.mem_map] at hq
        obtain ⟨p, -, rfl⟩ := hq
        exact ⟨rfl, rfl⟩

/-- C3 witness: on the example store, a gateway failure leaves the
visible state unchanged. -/
theorem start_session_atomic_witness :
    visibleDB exDB (start_session exDB "u1" ⟨"Data Engineer", "Hard", 4⟩
      "s2" (fun _ => "qx") 9 (.error ⟨503, "AI service error: down"⟩)) = exDB :=
  (start_session_atomic exDB "u1" ⟨"Data Engineer", "Hard", 4⟩ "s2"
    (fun _ => "qx") 9 (.error ⟨503, "AI service error: down"⟩)).1
    ⟨503, "AI service error: down"⟩ rfl

/-- C7: for a valid `question_count` n ∈ [3,10], a provider response
with fewer than n questions makes `start_session` fail with the 502
`UpstreamInvalid` error (no padding); a successful `start_session`
persists exactly n new questions, with `order_index` 0..n-1 contiguous
and the texts the first n the provider returned, in order. -/
theorem start_session_question_indices (db : DB) (user_id : String)
    (data : StartInterviewRequest) (su : String) (qu : Nat → String)
    (now : Nat) (g : ParsedGeneration)
    (_h3 : 3 ≤ data.question_count) (_h10 : data.question_count ≤ 10) :
    ((g.questions.getD []).length < data.question_count →
      start_session db user_id data su qu now (.ok g) =
        .error ⟨502, "AI did not return the expected number of questions."⟩)
    ∧ (∀ db2, start_session db user_id data su qu now (.ok g) = .ok db2 →
        ∃ qs, db2.questions = db.questions ++ qs
          ∧ qs.length = data.question_count
          ∧ qs.map (fun q => q.order_index) = List.range data.question_count
          ∧ qs.map (fun q => q.question_text) =
              (g.questions.getD []).take data.question_count
          ∧ ∀ q ∈ qs, q.session_id = su) := by
  constructor
  · intro hshort
    have hgenerr : generate_questions (.ok g) data.question_count =
        .error ⟨502, "AI did not return the expected number of questions."⟩ := by
      unfold generate_questions
      simp [hshort]
    unfold start_session
    simp only [hgenerr]
  · intro db2 h
    unfold start_session at h
    split at h
    · exact absurd h (by simp)
    · rename_i texts hgen
      obtain ⟨g', hg', htexts, hge, hlen⟩ := generate_questions_ok hgen
      have hgg : g' = g := by
        injection hg'.symm
      subst hgg
      have hdb2 := Except.ok.inj h
      subst hdb2
      refine ⟨texts.enum.map (fun p =>
          { id := qu p.1, session_id := su, question_text := p.2,
            user_answer := none, order_index := p.1 }), rfl, ?_, ?_, ?_, ?_⟩
      · rw [List.length_map, List.enum_length, hlen]
      · rw [List.map_map]
        have : ((fun q : InterviewQuestion => q.order_index) ∘
            (fun p : Nat × String =>
              ({ id := qu p.1, session_id := su, question_text := p.2,
                 user_answer := none, order_index := p.1 } : InterviewQuestion)))
            = Prod.fst := rfl
        rw [this, List.enum_map_fst, hlen]
      · rw [List.map_map]
        have : ((fun q : InterviewQuestion => q.question_text) ∘
            (fun p : Nat × String =>
              ({ id := qu p.1, session_id := su, question_text := p.2,
                 user_answer := none, order_index := p.1 } : InterviewQuestion)))
            = Prod.snd := rfl
        rw [this, List.enum_map_snd, htexts]
      · intro q hq
        rw [List.mem_map] at hq
        obtain ⟨p, -, rfl⟩ := hq
        rfl

/-- C7 witness: a 3-question request answered by a provider list of
only one question fails with the 502 error. -/
theorem start_session_question_indices_witness :
    start_session exDB "u1" ⟨"Backend Engineer", "Easy", 3⟩ "s2"
        (fun _ => "qx") 9 (.ok ⟨some ["only one?"]⟩) =
      .error ⟨502, "AI did not return the expected number of questions."⟩ :=
  (start_session_question_indices exDB "u1" ⟨"Backend Engineer", "Easy", 3⟩
    "s2" (fun _ => "qx") 9 ⟨some ["only one?"]⟩
    (by decide) (by decide)).1 (by decide)

/-! ## C2 — what happens to the answer when the AI evaluation fails

The spec asserts the submitted answer text stays persisted.  In the
source the assignment `question.user_answer = data.answer` is only an
in-memory attribute write: with `autoflush=False` it is never flushed
before `self.ai.evaluate_answer(...)` raises, the service never reaches
`db.commit()`, and `get_db` rolls the transaction back.  A subsequent
read therefore sees the answer as NULL (and no Feedback), and the
question can be submitted again. -/

/-- C2 counterexample: on the example store, submitting an answer for
the open question `q0` while the AI evaluation fails propagates the
error, but the visible state afterwards still shows `q0` with
`user_answer = NULL` — the answer is *not* persisted, contradicting
the claim. -/
theorem submit_answer_eval_failure_counterexample :
    submit_answer exDB "s1" "q0" "u1" ⟨"my answer"⟩ "f0"
        (.error ⟨503, "AI service error: timeout"⟩) =
      .error ⟨503, "AI service error: timeout"⟩
    ∧ (visibleDBSubmit exDB (submit_answer exDB "s1" "q0" "u1" ⟨"my answer"⟩
        "f0" (.error ⟨503, "AI service error: timeout"⟩))).questions.map
          (fun q => (q.id, q.user_answer)) =
        [("q0", none), ("q1", some "a1"), ("q2", some "a2")]
    ∧ (visibleDBSubmit exDB (submit_answer exDB "s1" "q0" "u1" ⟨"my answer"⟩
        "f0" (.error ⟨503, "AI service error: timeout"⟩))).feedbacks =
        [exF1, exF2] := by
  refine ⟨rfl, rfl, rfl⟩

/-- C2 amended: when the AI evaluation step fails on a previously
unanswered question, the upstream error propagates to the caller
unchanged, and the whole transaction is rolled back: the visible state
is exactly the previous one, so the submitted answer is *not*
persisted (the question's `user_answer` stays NULL, no Feedback row
appears, and the question remains answerable). -/
theorem submit_answer_eval_failure_rolls_back (db : DB)
    (sid qid uid : String) (data : SubmitAnswerRequest) (fu : String)
    (e : HTTPError) (session : InterviewSession)
    (question : InterviewQuestion)
    (hs : get_session_for_user db sid uid = .ok session)
    (hq : (db.questions.filter
      (fun q => q.id == qid && q.session_id == sid)).head? = some question)
    (ha : question.user_answer = none) :
    submit_answer db sid qid uid data fu (.error e) = .error e
    ∧ visibleDBSubmit db
        (submit_answer db sid qid uid data fu (.error e)) = db := by
  have hred : submit_answer db sid qid uid data fu (.error e) =
      (if pyTruthyStr question.user_answer = true then
        (.error ⟨400, "This question has already been answered."⟩ :
          Except HTTPError (DB × SubmitAnswerResponse))
      else
        match evaluate_answer (.error e) with
        | .error e2 => .error e2
        | .ok fd =>
          .ok (submit_commit db sid qid session question data.answer fu fd)) := by
    unfold submit_answer
    rw [hs, hq]
  have hmain : submit_answer db sid qid uid data fu (.error e) = .error e := by
    rw [hred, ha]
    simp [pyTruthyStr]
    rfl
  exact ⟨hmain, by rw [hmain]; rfl⟩

/-- C2 amended-claim witness: the concrete counterexample run, obtained
by applying the general rollback theorem. -/
theorem submit_answer_eval_failure_rolls_back_witness :
    submit_answer exDB "s1" "q0" "u1" ⟨"my answer"⟩ "f0"
        (.error ⟨502, "AI returned invalid response during answer evaluation: x"⟩) =
      .error ⟨502, "AI returned invalid response during answer evaluation: x"⟩
    ∧ visibleDBSubmit exDB (submit_answer exDB "s1" "q0" "u1" ⟨"my answer"⟩
        "f0" (.error ⟨502,
          "AI returned invalid response during answer evaluation: x"⟩)) = exDB :=
  submit_answer_eval_failure_rolls_back exDB "s1" "q0" "u1" ⟨"my answer"⟩
    "f0" ⟨502, "AI returned invalid response during answer evaluation: x"⟩
    exSession exQ0 rfl rfl rfl

/-! ## C5 — answers are write-once -/

/-- C5: a `submit_answer` call on a question whose stored answer is
already non-null fails with the 400 already-answered error and leaves
the visible state — the stored answer and any stored feedback —
unchanged.  (The guard in the source is Python truthiness of
`user_answer`; a stored answer is always non-empty because
`SubmitAnswerRequest` enforces `min_length=1`, see
`answersNonempty_submit_answer` below, so non-null coincides with
truthy on every reachable store.) -/
theorem submit_answer_already_answered (db : DB) (sid qid uid : String)
    (data : SubmitAnswerRequest) (fu : String)
    (o : Except HTTPError ParsedEvaluation) (session : InterviewSession)
    (question : InterviewQuestion) (a : String)
    (hs : get_session_for_user db sid uid = .ok session)
    (hq : (db.questions.filter
      (fun q => q.id == qid && q.session_id == sid)).head? = some question)
    (ha : question.user_answer = some a) (hne : a ≠ "") :
    submit_answer db sid qid uid data fu o =
        .error ⟨400, "This question has already been answered."⟩
    ∧ visibleDBSubmit db (submit_answer db sid qid uid data fu o) = db := by
  have htruthy : pyTruthyStr question.user_answer = true := by
    rw [ha]
    simpa [pyTruthyStr] using hne
  have hred : submit_answer db sid qid uid data fu o =
      (if pyTruthyStr question.user_answer = true then
        (.error ⟨400, "This question has already been answered."⟩ :
          Except HTTPError (DB × SubmitAnswerResponse))
      else
        match evaluate_answer o with
        | .error e2 => .error e2
        | .ok fd =>
          .ok (submit_commit db sid qid session question data.answer fu fd)) := by
    unfold submit_answer
    rw [hs, hq]
  have hmain : submit_answer db sid qid uid data fu o =
      .error ⟨400, "This question has already been answered."⟩ := by
    rw [hred, htruthy]
    simp
  exact ⟨hmain, by rw [hmain]; rfl⟩

/-- C5 witness: re-submitting `q1` of the example store (answered with
`"a1"` in an earlier request) fails with the 400 error and changes
nothing. -/
theorem submit_answer_already_answered_witness :
    submit_answer exDB "s1" "q1" "u1" ⟨"second try"⟩ "f7" exEvalOk =
        .error ⟨400, "This question has already been answered."⟩
    ∧ visibleDBSubmit exDB
        (submit_answer exDB "s1" "q1" "u1" ⟨"second try"⟩ "f7" exEvalOk) =
        exDB :=
  submit_answer_already_answered exDB "s1" "q1" "u1" ⟨"second try"⟩ "f7"
    exEvalOk exSession exQ1 "a1" rfl rfl rfl (by decide)

/-! ## submit_commit shape lemmas -/

theorem submit_commit_questions (db : DB) (sid qid : String)
    (session : InterviewSession) (question : InterviewQuestion)
    (answer fu : String) (fd : EvaluationData) :
    (submit_commit db sid qid session question answer fu fd).1.questions =
      db.questions.map (fun q =>
        if q.id == question.id then { q with user_answer := some answer }
        else q) := rfl

theorem submit_commit_feedbacks (db : DB) (sid qid : String)
    (session : InterviewSession) (question : InterviewQuestion)
    (answer fu : String) (fd : EvaluationData) :
    (submit_commit db sid qid session question answer fu fd).1.feedbacks =
      db.feedbacks ++ [⟨fu, question.id, fd.score, fd.overall_feedback,
        fd.strengths, fd.improvements⟩] := rfl

theorem submit_commit_resp (db : DB) (sid qid : String)
    (session : InterviewSession) (question : InterviewQuestion)
    (answer fu : String) (fd : EvaluationData) :
    (submit_commit db sid qid session question answer fu fd).2 =
      ⟨qid, ⟨fu, question.id, fd.score, fd.overall_feedback,
        fd.strengths, fd.improvements⟩,
       decide (answeredCount db sid ≥ session.question_count),
       decide (answeredCount db sid ≥ session.question_count)⟩ := rfl

/-- The session table after `submit_commit`: untouched unless the
completion check fired, in which case exactly the session row gets
`final_score` and `is_completed = "true"`. -/
theorem submit_commit_sessions_cases (db : DB) (sid qid : String)
    (session : InterviewSession) (question : InterviewQuestion)
    (answer fu : String) (fd : EvaluationData) :
    ((submit_commit db sid qid session question answer fu fd).1.sessions =
        db.sessions
      ∧ (submit_commit db sid qid session question answer fu fd).2.session_complete
          = false)
    ∨ (∃ fsc : ℚ,
        (submit_commit db sid qid session question answer fu fd).1.sessions =
          db.sessions.map (fun s =>
            if s.id == session.id then
              { s with final_score := some fsc, is_completed := "true" }
            else s)
        ∧ (submit_commit db sid qid session question answer fu fd).2.session_complete
            = true) := by
  rcases Bool.eq_false_or_eq_true
      (decide (answeredCount db sid ≥ session.question_count)) with hc | hc
  · right
    refine ⟨(((((sessionFeedbacks db sid).map (fun f => f.score))
        ++ [fd.score]).sum : ℚ) /
          ((((sessionFeedbacks db sid).map (fun f => f.score))
            ++ [fd.score]).length : ℚ)), ?_, ?_⟩
    · show (if (decide (answeredCount db sid ≥ session.question_count)) = true
          then db.sessions.map _ else db.sessions) = db.sessions.map _
      rw [hc]
      simp
    · rw [submit_commit_resp, hc]
  · left
    constructor
    · show (if (decide (answeredCount db sid ≥ session.question_count)) = true
          then _ else db.sessions) = db.sessions
      rw [hc]
      simp
    · rw [submit_commit_resp, hc]

/-! ## C1 — the completion check never fires

The spec says `sessionComplete` is true iff the k-th distinct answered
question has k = n.  In the source the answered-question count is a
database COUNT executed *before* the pending `user_answer` write is
flushed (`autoflush=False`, single commit at the end), so on the k-th
distinct submission it evaluates to k-1, and `is_last = (k-1 >= n)` is
false for every k ≤ n.  A session whose stored questions number exactly
`question_count` therefore never completes: the theorem below shows the
flags are false and the session row unchanged on *every* successful
submission of a previously unanswered question — including the n-th. -/

/-- C1: under the stored invariant that the session has exactly
`question_count` question rows, a successful `submit_answer` on a
previously unanswered question always returns
`session_complete = false` and `is_last_question = false` and leaves
the session table unchanged — `completed` never becomes true and
`final_score` is never set, contradicting the claim for k = n. -/
theorem submit_answer_never_completes (db : DB) (sid qid uid : String)
    (data : SubmitAnswerRequest) (fu : String)
    (o : Except HTTPError ParsedEvaluation)
    (session : InterviewSession) (question : InterviewQuestion)
    (db2 : DB) (resp : SubmitAnswerResponse)
    (hs : get_session_for_user db sid uid = .ok session)
    (hq : (db.questions.filter
      (fun q => q.id == qid && q.session_id == sid)).head? = some question)
    (hqa : question.user_answer = none)
    (hcnt : (db.questions.filter
      (fun q => q.session_id == sid)).length = session.question_count)
    (hok : submit_answer db sid qid uid data fu o = .ok (db2, resp)) :
    resp.session_complete = false ∧ resp.is_last_question = false
    ∧ db2.sessions = db.sessions := by
  have hlt : answeredCount db sid < session.question_count := by
    rw [← hcnt]
    unfold answeredCount
    have hsplit : db.questions.filter
        (fun q => q.session_id == sid && q.user_answer.isSome) =
        (db.questions.filter (fun q => q.session_id == sid)).filter
          (fun q => q.user_answer.isSome) := by
      rw [List.filter_filter]
      apply List.filter_congr
      intro q _
      exact Bool.and_comm _ _
    rw [hsplit, List.length_filter_lt_length_iff_exists]
    obtain ⟨hmem, -, hsid⟩ := question_lookup_facts hq
    refine ⟨question, ?_, ?_⟩
    · rw [List.mem_filter]
      exact ⟨hmem, by simp [hsid]⟩
    · simp [hqa]
  have hfalse : (decide (answeredCount db sid ≥ session.question_count))
      = false := by
    simp only [ge_iff_le, decide_eq_false_iff_not, Nat.not_le]
    exact hlt
  obtain ⟨session', question', fd, hs', hq', -, -, hcommit⟩ :=
    submit_answer_ok_inv hok
  have hsess_eq : session' = session := Except.ok.inj (hs'.symm.trans hs)
  subst hsess_eq
  have hdb2 : db2 = (submit_commit db sid qid session' question'
      data.answer fu fd).1 := congrArg Prod.fst hcommit
  have hresp : resp = (submit_commit db sid qid session' question'
      data.answer fu fd).2 := congrArg Prod.snd hcommit
  refine ⟨?_, ?_, ?_⟩
  · rw [hresp, submit_commit_resp, hfalse]
  · rw [hresp, submit_commit_resp, hfalse]
  · rw [hdb2]
    show (if (decide (answeredCount db sid ≥ session'.question_count)) = true
        then _ else db.sessions) = db.sessions
    rw [hfalse]
    simp

/-- C1 witness: submitting the third and last unanswered question of the
example three-question session (k = n = 3) still yields both flags
false and an unchanged session row. -/
theorem submit_answer_never_completes_witness :
    exRespAfter.session_complete = false
    ∧ exRespAfter.is_last_question = false
    ∧ exDBAfter.sessions = exDB.sessions :=
  submit_answer_never_completes exDB "s1" "q0" "u1" ⟨"a3"⟩ "f9" exEvalOk
    exSession exQ0 exDBAfter exRespAfter rfl rfl rfl (by decide) rfl

/-! ## C10 — frame condition of a successful submit_answer -/

/-- C10: a successful `submit_answer` on question `qid` of session `sid`
changes only that question's `user_answer` (its text, order index and
session link are kept, every other question row is untouched), appends
exactly one new Feedback row for `qid` (all previously existing
Feedback rows unchanged, in place), never touches any session's `role`,
`difficulty`, `question_count` or `created_at`, leaves every other
session row untouched, and leaves the session table entirely unchanged
whenever the completion flag did not fire. -/
theorem submit_answer_frame (db : DB) (sid qid uid : String)
    (data : SubmitAnswerRequest) (fu : String)
    (o : Except HTTPError ParsedEvaluation)
    (db2 : DB) (resp : SubmitAnswerResponse)
    (hok : submit_answer db sid qid uid data fu o = .ok (db2, resp)) :
    (∀ q ∈ db2.questions, ∃ q0 ∈ db.questions,
        q.id = q0.id ∧ q.question_text = q0.question_text
        ∧ q.order_index = q0.order_index ∧ q.session_id = q0.session_id
        ∧ (q0.id ≠ qid → q = q0))
    ∧ (∀ q0 ∈ db.questions, q0.id ≠ qid → q0 ∈ db2.questions)
    ∧ db2.questions.length = db.questions.length
    ∧ (∃ fb, fb.id = fu ∧ fb.question_id = qid
        ∧ db2.feedbacks = db.feedbacks ++ [fb])
    ∧ (∀ s ∈ db2.sessions, ∃ s0 ∈ db.sessions,
        s.id = s0.id ∧ s.role = s0.role ∧ s.difficulty = s0.difficulty
        ∧ s.question_count = s0.question_count ∧ s.created_at = s0.created_at
        ∧ (s0.id ≠ sid → s = s0))
    ∧ (∀ s0 ∈ db.sessions, s0.id ≠ sid → s0 ∈ db2.sessions)
    ∧ (resp.session_complete = false → db2.sessions = db.sessions) := by
  obtain ⟨session, question, fd, hs, hq, -, -, hcommit⟩ :=
    submit_answer_ok_inv hok
  obtain ⟨-, hqid, -⟩ := question_lookup_facts hq
  obtain ⟨-, hsid, -⟩ := session_lookup_facts hs
  have hdb2 : db2 = (submit_commit db sid qid session question
      data.answer fu fd).1 := congrArg Prod.fst hcommit
  have hresp : resp = (submit_commit db sid qid session question
      data.answer fu fd).2 := congrArg Prod.snd hcommit
  have hquestions : db2.questions = db.questions.map (fun q =>
      if q.id == qid then { q with user_answer := some data.answer }
      else q) := by
    rw [hdb2, submit_commit_questions, hqid]
  refine ⟨?_, ?_, ?_, ?_, ?_, ?_, ?_⟩
  · intro q hqmem
    rw [hquestions, List.mem_map] at hqmem
    obtain ⟨q0, hq0, rfl⟩ := hqmem
    by_cases hcase : q0.id = qid
    · rw [if_pos (by simp [hcase])]
      exact ⟨q0, hq0, rfl, rfl, rfl, rfl, fun hne => absurd hcase hne⟩
    · rw [if_neg (by simp [hcase])]
      exact ⟨q0, hq0, rfl, rfl, rfl, rfl, fun _ => rfl⟩
  · intro q0 hq0 hne
    rw [hquestions, List.mem_map]
    exact ⟨q0, hq0, by rw [if_neg (by simp [hne])]⟩
  · rw [hquestions, List.length_map]
  · refine ⟨⟨fu, question.id, fd.score, fd.overall_feedback,
      fd.strengths, fd.improvements⟩, rfl, hqid, ?_⟩
    rw [hdb2, submit_commit_feedbacks]
  · intro s hsmem
    rcases submit_commit_sessions_cases db sid qid session question
        data.answer fu fd with ⟨hsame, -⟩ | ⟨fsc, hmap, -⟩
    · rw [hdb2, hsame] at hsmem
      exact ⟨s, hsmem, rfl, rfl, rfl, rfl, rfl, fun _ => rfl⟩
    · rw [hdb2, hmap, List.mem_map] at hsmem
      obtain ⟨s0, hs0, rfl⟩ := hsmem
      by_cases hcase : s0.id = session.id
      · rw [if_pos (by simp [hcase])]
        refine ⟨s0, hs0, rfl, rfl, rfl, rfl, rfl, fun hne => ?_⟩
        exact absurd (hsid ▸ hcase) hne
      · rw [if_neg (by simp [hcase])]
        exact ⟨s0, hs0, rfl, rfl, rfl, rfl, rfl, fun _ => rfl⟩
  · intro s0 hs0 hne
    rcases submit_commit_sessions_cases db sid qid session question
        data.answer fu fd with ⟨hsame, -⟩ | ⟨fsc, hmap, -⟩
    · rw [hdb2, hsame]
      exact hs0
    · rw [hdb2, hmap, List.mem_map]
      refine ⟨s0, hs0, ?_⟩
      rw [if_neg (by simp [hsid ▸ hne])]
  · intro hflag
    rcases submit_commit_sessions_cases db sid qid session question
        data.answer fu fd with ⟨hsame, -⟩ | ⟨fsc, -, hcomplete⟩
    · rw [hdb2, hsame]
    · rw [hresp, hcomplete] at hflag
      exact absurd hflag (by simp)

/-- C10 witness: the frame conjunction instantiated at the concrete
example submission (answering `q0` of `exDB`). -/
theorem submit_answer_frame_witness :
    (∀ q ∈ exDBAfter.questions, ∃ q0 ∈ exDB.questions,
        q.id = q0.id ∧ q.question_text = q0.question_text
        ∧ q.order_index = q0.order_index ∧ q.session_id = q0.session_id
        ∧ (q0.id ≠ "q0" → q = q0))
    ∧ (∀ q0 ∈ exDB.questions, q0.id ≠ "q0" → q0 ∈ exDBAfter.questions)
    ∧ exDBAfter.questions.length = exDB.questions.length
    ∧ (∃ fb, fb.id = "f9" ∧ fb.question_id = "q0"
        ∧ exDBAfter.feedbacks = exDB.feedbacks ++ [fb])
    ∧ (∀ s ∈ exDBAfter.sessions, ∃ s0 ∈ exDB.sessions,
        s.id = s0.id ∧ s.role = s0.role ∧ s.difficulty = s0.difficulty
        ∧ s.question_count = s0.question_count ∧ s.created_at = s0.created_at
        ∧ (s0.id ≠ "s1" → s = s0))
    ∧ (∀ s0 ∈ exDB.sessions, s0.id ≠ "s1" → s0 ∈ exDBAfter.sessions)
    ∧ (exRespAfter.session_complete = false →
        exDBAfter.sessions = exDB.sessions) :=
  submit_answer_frame exDB "s1" "q0" "u1" ⟨"a3"⟩ "f9" exEvalOk
    exDBAfter exRespAfter rfl

/-! ## C4 — final_score at completion

The spec requires a Completed session's `final_score` to be the mean of
its n feedback scores.  Because of the unflushed-count bug established
for C1, the Completed state is unreachable: a full run of the scenario
of spec §8 (3-question session, all three questions answered and
evaluated successfully) ends with all questions answered, yet the
session still has `is_completed = "false"` and `final_score = NULL`,
so no session ever satisfies the claim's premise. -/

/-- The full scenario run: start a 3-question session from an empty
store and answer all three questions, each evaluation succeeding. -/
def runStart : Except HTTPError DB :=
  start_session ⟨[], [], []⟩ "u1" ⟨"Backend Engineer", "Easy", 3⟩ "s1"
    (fun i => if i = 0 then "q0" else if i = 1 then "q1" else "q2") 5
    (.ok ⟨some ["A?", "B?", "C?"]⟩)

/-- One answer submission step of the scenario, chained on the previous
committed state. -/
def runSubmitStep (r : Except HTTPError DB) (qid fu : String) (sc : Int) :
    Except HTTPError (DB × SubmitAnswerResponse) :=
  match r with
  | .error e => .error e
  | .ok db =>
    submit_answer db "s1" qid "u1" ⟨"answer text"⟩ fu
      (.ok ⟨some sc, some "fb", some ["s"], some ["i"]⟩)

/-- The scenario after answering all three questions. -/
def runAll : Except HTTPError (DB × SubmitAnswerResponse) :=
  runSubmitStep ((runSubmitStep ((runSubmitStep runStart
    "q0" "f0" 80).map Prod.fst) "q1" "f1" 90).map Prod.fst) "q2" "f2" 70

/-- C4: in the fully played-out scenario every question is answered and
has feedback, yet the final submission still reports
`session_complete = false` and the committed session row has
`is_completed = "false"` and `final_score = NULL`: no session ever
reaches the Completed state, so `final_score` is never computed at
all — the code cannot realise the claimed completion-time mean. -/
theorem final_score_never_set :
    runAll.map (fun p => (p.2.session_complete, p.2.is_last_question)) =
      .ok (false, false)
    ∧ runAll.map (fun p => p.1.sessions.map
        (fun s => (s.is_completed, s.final_score))) =
      .ok [("false", (none : Option ℚ))]
    ∧ runAll.map (fun p => p.1.questions.all
        (fun q => q.user_answer.isSome)) = .ok true
    ∧ runAll.map (fun p => p.1.feedbacks.length) = .ok 3 :=
  ⟨rfl, rfl, rfl, rfl⟩

/-! ## C9 — history projection -/

/-- C9: `get_history` returns at most `limit` items, every item is the
projection of a stored Completed session of the requesting user
(with `score` equal to `final_score`, or `0.0` when `final_score` is
NULL), and the items are ordered by session creation time descending
(the projected `completed_at` *is* the session's `created_at` in the
source). -/
theorem get_history_spec (db : DB) (uid : String) (limit : Nat) :
    (get_history db uid limit).length ≤ limit
    ∧ (∀ item ∈ get_history db uid limit, ∃ s ∈ db.sessions,
        s.user_id = uid ∧ s.is_completed = "true"
        ∧ item = ⟨s.id, s.role, s.difficulty, s.question_count,
            pyOrFloat s.final_score 0, s.created_at⟩
        ∧ (s.final_score = none → item.score = 0)
        ∧ (∀ x, s.final_score = some x → item.score = x))
    ∧ (get_history db uid limit).Pairwise
        (fun a b => b.completed_at ≤ a.completed_at) := by
  refine ⟨?_, ?_, ?_⟩
  · show (List.map _ (List.take limit _)).length ≤ limit
    rw [List.length_map, List.length_take]
    omega
  · intro item hitem
    rw [show get_history db uid limit = List.map _ (List.take limit _)
      from rfl, List.mem_map] at hitem
    obtain ⟨s, hs, rfl⟩ := hitem
    have hs2 := List.mem_mergeSort.mp (List.mem_of_mem_take hs)
    rw [List.mem_filter] at hs2
    obtain ⟨hmem, hpred⟩ := hs2
    simp only [Bool.and_eq_true, beq_iff_eq] at hpred
    refine ⟨s, hmem, hpred.1, hpred.2, rfl, ?_, ?_⟩
    · intro hnone
      show pyOrFloat s.final_score 0 = 0
      rw [hnone]
      rfl
    · intro x hx
      show pyOrFloat s.final_score 0 = x
      rw [hx]
      show (if (x == 0) = true then (0 : ℚ) else x) = x
      by_cases h0 : x = 0 <;> simp [h0]
  · show (List.map _ (List.take limit _)).Pairwise _
    rw [List.pairwise_map]
    have htrans : ∀ a b c : InterviewSession,
        (decide (b.created_at ≤ a.created_at)) = true →
        (decide (c.created_at ≤ b.created_at)) = true →
        (decide (c.created_at ≤ a.created_at)) = true := by
      intro a b c h1 h2
      simp only [decide_eq_true_eq] at h1 h2 ⊢
      omega
    have htotal : ∀ a b : InterviewSession,
        ((decide (b.created_at ≤ a.created_at)) ||
          (decide (a.created_at ≤ b.created_at))) = true := by
      intro a b
      simp only [Bool.or_eq_true, decide_eq_true_eq]
      omega
    have hsorted := @List.sorted_mergeSort InterviewSession
      (fun a b => decide (b.created_at ≤ a.created_at)) htrans htotal
      (db.sessions.filter
        (fun s => s.user_id == uid && s.is_completed == "true"))
    have hpair := List.Pairwise.sublist (List.take_sublist limit _) hsorted
    exact hpair.imp (fun h => of_decide_eq_true h)

/-- Two committed sessions of `u1` for the history example, plus the
incomplete `exSession` and a foreign user's session that must not
appear. -/
def exHist1 : InterviewSession :=
  ⟨"h1", "u1", "Backend Engineer", "Easy", 3, some 80, "true", 10⟩

def exHist2 : InterviewSession :=
  ⟨"h2", "u1", "Data Analyst", "Hard", 4, none, "true", 20⟩

def exHist3 : InterviewSession :=
  ⟨"h3", "u2", "QA", "Easy", 3, some 50, "true", 30⟩

def exHistDB : DB := ⟨[exSession, exHist1, exHist2, exHist3], [], []⟩

/-- C9 witness: the history theorem instantiated on a concrete store
with a limit of 1. -/
theorem get_history_spec_witness :
    (get_history exHistDB "u1" 1).length ≤ 1
    ∧ (∀ item ∈ get_history exHistDB "u1" 1, ∃ s ∈ exHistDB.sessions,
        s.user_id = "u1" ∧ s.is_completed = "true"
        ∧ item = ⟨s.id, s.role, s.difficulty, s.question_count,
            pyOrFloat s.final_score 0, s.created_at⟩
        ∧ (s.final_score = none → item.score = 0)
        ∧ (∀ x, s.final_score = some x → item.score = x))
    ∧ (get_history exHistDB "u1" 1).Pairwise
        (fun a b => b.completed_at ≤ a.completed_at) :=
  get_history_spec exHistDB "u1" 1

/-! ## Reachability hygiene: stored answers are never the empty string

The already-answered guard in the source is Python *truthiness*, which
would let an empty-string answer through; but `SubmitAnswerRequest`
enforces `min_length=1`, so on every store reachable through the
service operations a non-null `user_answer` is non-empty and the
truthiness guard coincides with the null check. -/

def answersNonempty (db : DB) : Prop :=
  ∀ q ∈ db.questions, q.user_answer ≠ some ""

/-- Inversion of a successful `start_session`. -/
theorem start_session_ok_inv {db : DB} {uid : String}
    {data : StartInterviewRequest} {su : String} {qu : Nat → String}
    {now : Nat} {o : Except HTTPError ParsedGeneration} {db2 : DB}
    (h : start_session db uid data su qu now o = .ok db2) :
    ∃ texts : List String,
      db2 = { db with
        sessions := db.sessions ++ [⟨su, uid, data.role, data.difficulty,
          data.question_count, none, "false", now⟩],
        questions := db.questions ++ texts.enum.map
          (fun p => ⟨qu p.1, su, p.2, none, p.1⟩) } := by
  unfold start_session at h
  split at h
  · exact absurd h (by simp)
  · rename_i texts hgen
    exact ⟨texts, (Except.ok.inj h).symm⟩

/-- Since `start_session` stores only questions with NULL answers, it
preserves the non-empty-answer hygiene. -/
theorem answersNonempty_start_session {db : DB} {uid : String}
    {data : StartInterviewRequest} {su : String} {qu : Nat → String}
    {now : Nat} {o : Except HTTPError ParsedGeneration} {db2 : DB}
    (hdb : answersNonempty db)
    (h : start_session db uid data su qu now o = .ok db2) :
    answersNonempty db2 := by
  obtain ⟨texts, rfl⟩ := start_session_ok_inv h
  intro q hq
  rw [List.mem_append] at hq
  rcases hq with hq | hq
  · exact hdb q hq
  · rw [List.mem_map] at hq
    obtain ⟨p, -, rfl⟩ := hq
    simp

/-- Since `submit_answer` only ever stores the validated request's answer
(`min_length=1`), so it preserves the non-empty-answer hygiene. -/
theorem answersNonempty_submit_answer {db : DB} {sid qid uid : String}
    {data : SubmitAnswerRequest} {fu : String}
    {o : Except HTTPError ParsedEvaluation} {db2 : DB}
    {resp : SubmitAnswerResponse}
    (hdb : answersNonempty db) (hval : validSubmitAnswerRequest data)
    (h : submit_answer db sid qid uid data fu o = .ok (db2, resp)) :
    answersNonempty db2 := by
  obtain ⟨session, question, fd, -, -, -, -, hcommit⟩ :=
    submit_answer_ok_inv h
  have hdb2 : db2 = (submit_commit db sid qid session question
      data.answer fu fd).1 := congrArg Prod.fst hcommit
  intro q hq
  rw [hdb2, submit_commit_questions, List.mem_map] at hq
  obtain ⟨q0, hq0, rfl⟩ := hq
  by_cases hc : q0.id = question.id
  · rw [if_pos (by simp [hc])]
    intro hcontra
    have hempty : data.answer = "" := by
      simpa using hcontra
    exact absurd (hempty ▸ hval.1) (by decide)
  · rw [if_neg (by simp [hc])]
    exact hdb q0 hq0

end Mockmate
